import Mathlib

/-!
# Verification of the SIEM anomaly-detector core

A shallow embedding, in Lean 4, of the anomaly-scoring core of the
SIEM-Anomaly-Detector-ML repository, together with theorems settling the
frozen claims about it.

Embedded source files:
* `backend/db/cache.py`      — the Redis-backed streaming aggregator;
* `backend/ml/features.py`   — the feature extractor;
* `backend/ml/ensemble.py`   — the three-model ensemble (`AnomalyEnsemble`);
* `backend/ml/model_loader.py` — the prediction-service loader;
* `backend/config.py`        — weight validation and default thresholds;
* `backend/api/routes/analysis.py` — the risk-tier mapping.

Modelling conventions:
* Python floats are modelled as `ℚ` where the source only adds, divides and
  compares counters/weights, and as `ℝ` where the source calls `np.exp`,
  `np.log`, `np.sqrt` (ensemble scores, distances, entropy).
* `datetime` values are epoch seconds in `ℚ`; `int(ts.timestamp())` is
  `pyInt` (truncation toward zero, as Python's `int()`).
* The Redis sorted sets of `cache.py` store `timestamp_seconds` both as
  member and score, so a timeline is a duplicate-free `List ℤ` of whole
  seconds; `zadd` with an existing member only rewrites its score and is
  therefore modelled as "insert if absent".  Key-level TTL (`expire`) only
  sets expiry metadata and is modelled as a no-op.
* An unreachable backing store is modelled by the flag `up := false` on the
  state: every Redis operation then returns `Except.error`, which is what
  `redis.RedisError` raises become.  Python exceptions are `Except` values;
  `try/except` blocks are `match` on them.
* Calls into scikit-learn fitted estimators (`decision_function`,
  `score_samples`) are opaque function-valued fields of the embedded model:
  the repository treats them as black boxes and this development verifies
  the repository's own logic around them.
-/

set_option autoImplicit false

namespace Siem

/-- Error values for embedded Python exceptions. -/
inductive PyErr where
  | redisError
  | zeroDivision
  deriving DecidableEq, Repr

/-- Python `int()` applied to a rational number of seconds: truncation
toward zero (`Int.tdiv` truncates toward zero, like Python's `int()`). -/
def pyInt (q : ℚ) : ℤ := q.num.tdiv (q.den : ℤ)

/-- State of the Redis store backing the aggregator (`backend/db/cache.py`).
`zsets` are the sorted sets keyed by strings such as `login_attempts:<ip>`
(member = score = whole second); `sets` are the plain sets such as
`endpoints:<ip>`; `up` is false when the store is unreachable. -/
structure RedisState where
  zsets : String → List ℤ
  sets : String → List String
  up : Bool

/-- A fresh store with no entries. -/
def emptyRedis (up : Bool) : RedisState :=
  { zsets := fun _ => [], sets := fun _ => [], up := up }

/-- `redis.zadd key {member: member}` where the member is a whole second:
inserts the second if absent (re-adding an existing member only updates its
score, which equals the member, so the set is unchanged). -/
def zadd (st : RedisState) (key : String) (s : ℤ) : Except PyErr RedisState :=
  if st.up then
    .ok { st with zsets := fun k =>
            if k = key then
              (if s ∈ st.zsets key then st.zsets key else s :: st.zsets key)
            else st.zsets k }
  else .error .redisError

/-- `redis.zcount key lo hi`: members with score in the closed interval
`[lo, hi]` (Redis bounds are inclusive by default). -/
def zcount (st : RedisState) (key : String) (lo hi : ℤ) : Except PyErr ℕ :=
  if st.up then .ok ((st.zsets key).countP (fun s => decide (lo ≤ s ∧ s ≤ hi)))
  else .error .redisError

/-- `redis.zrevrange key 0 0 withscores=True`: the member with the highest
score, if any. -/
def zrevrangeTop (st : RedisState) (key : String) : Except PyErr (Option ℤ) :=
  if st.up then .ok (st.zsets key).max? else .error .redisError

/-- `redis.sadd key member`. -/
def sadd (st : RedisState) (key member : String) : Except PyErr RedisState :=
  if st.up then
    .ok { st with sets := fun k =>
            if k = key then
              (if member ∈ st.sets key then st.sets key else member :: st.sets key)
            else st.sets k }
  else .error .redisError

/-- `redis.scard key`. -/
def scard (st : RedisState) (key : String) : Except PyErr ℕ :=
  if st.up then .ok (st.sets key).length else .error .redisError

/-- The state after a `zadd` that created a one-element timeline. -/
def singletonZset (st : RedisState) (key : String) (s : ℤ) : RedisState :=
  { st with zsets := fun k => if k = key then [s] else st.zsets k }

/-- The state after a `sadd`. -/
def addSetMember (st : RedisState) (key member : String) : RedisState :=
  { st with sets := fun k =>
      if k = key then
        (if member ∈ st.sets key then st.sets key else member :: st.sets key)
      else st.sets k }

/-- Key of the all-attempts timeline for a source IP. -/
def loginAllKey (ip : String) : String := "login_attempts:" ++ ip

/-- Key of the failed-attempts timeline for a source IP. -/
def loginFailedKey (ip : String) : String := "login_attempts:failed:" ++ ip

/-- Key of the request timeline for a source IP. -/
def requestsKey (ip : String) : String := "requests:" ++ ip

/-- Key of the endpoint set for a source IP. -/
def endpointsKey (ip : String) : String := "endpoints:" ++ ip

/-- `cache.record_login_attempt(source_ip, success, timestamp)`: adds the
whole second to the all-attempts timeline, and to the failed timeline when
the attempt failed.  The trailing `expire` calls are no-ops here. -/
def recordLoginAttempt (st : RedisState) (ip : String) (success : Bool)
    (ts : ℚ) : Except PyErr RedisState :=
  match zadd st (loginAllKey ip) (pyInt ts) with
  | .error e => .error e
  | .ok st1 =>
      if success then .ok st1 else zadd st1 (loginFailedKey ip) (pyInt ts)

/-- `cache.get_login_attempts_rate(source_ip, window_seconds, timestamp)`:
counts the timeline entries in `[ts - window, ts]` and divides by
`window_seconds / 60`.  A `redis.RedisError` is caught and yields `0.0`;
`window_seconds = 0` reaches the division and raises `ZeroDivisionError`,
which is not caught. -/
def getLoginAttemptsRate (st : RedisState) (ip : String) (window : ℤ)
    (ts : ℚ) : Except PyErr ℚ :=
  let sec := pyInt ts
  match zcount st (loginAllKey ip) (sec - window) sec with
  | .error _ => .ok 0
  | .ok n =>
      if window = 0 then .error .zeroDivision
      else .ok ((n : ℚ) / ((window : ℚ) / 60))

/-- `cache.get_failed_auth_rate(source_ip, window_seconds, timestamp)`:
failed count over total count in `[ts - window, ts]`; `0.0` when the total
is zero or a `redis.RedisError` occurs. -/
def getFailedAuthRate (st : RedisState) (ip : String) (window : ℤ)
    (ts : ℚ) : Except PyErr ℚ :=
  let sec := pyInt ts
  match zcount st (loginAllKey ip) (sec - window) sec,
        zcount st (loginFailedKey ip) (sec - window) sec with
  | .ok total, .ok failed =>
      if total = 0 then .ok 0 else .ok ((failed : ℚ) / (total : ℚ))
  | _, _ => .ok 0

/-- `cache.record_request(source_ip, endpoint, timestamp)`: adds the whole
second to the request timeline and the endpoint to the endpoint set. -/
def recordRequest (st : RedisState) (ip endpoint : String)
    (ts : ℚ) : Except PyErr RedisState :=
  match zadd st (requestsKey ip) (pyInt ts) with
  | .error e => .error e
  | .ok st1 => sadd st1 (endpointsKey ip) endpoint

/-- `cache.get_requests_per_second(source_ip, window_seconds, timestamp)`:
count in `[ts - window, ts]` divided by `window_seconds`; `0.0` on
`redis.RedisError`; `ZeroDivisionError` when `window_seconds = 0`. -/
def getRequestsPerSecond (st : RedisState) (ip : String) (window : ℤ)
    (ts : ℚ) : Except PyErr ℚ :=
  let sec := pyInt ts
  match zcount st (requestsKey ip) (sec - window) sec with
  | .error _ => .ok 0
  | .ok n =>
      if window = 0 then .error .zeroDivision
      else .ok ((n : ℚ) / (window : ℚ))

/-- `cache.get_unique_endpoints_accessed(source_ip)`: set cardinality, `0`
on `redis.RedisError`. -/
def getUniqueEndpointsAccessed (st : RedisState) (ip : String) : Except PyErr ℕ :=
  match scard st (endpointsKey ip) with
  | .error _ => .ok 0
  | .ok n => .ok n

/-- `cache.get_unique_ips_last_hour()`: cardinality of the global
`unique_ips` set, `0` on `redis.RedisError`. -/
def getUniqueIpsLastHour (st : RedisState) : Except PyErr ℕ :=
  match scard st "unique_ips" with
  | .error _ => .ok 0
  | .ok n => .ok n

/-- `cache.record_ip_activity(source_ip)`: adds the IP to the global
`unique_ips` set. -/
def recordIpActivity (st : RedisState) (ip : String) : Except PyErr RedisState :=
  sadd st "unique_ips" ip

/-- `cache.get_time_since_last_activity(source_ip, timestamp)`: gap to the
most recent request-timeline entry; `0.0` when there is no history or a
`redis.RedisError` occurs. -/
def getTimeSinceLastActivity (st : RedisState) (ip : String)
    (ts : ℚ) : Except PyErr ℚ :=
  let sec := pyInt ts
  match zrevrangeTop st (requestsKey ip) with
  | .error _ => .ok 0
  | .ok none => .ok 0
  | .ok (some last) => .ok ((sec : ℚ) - (last : ℚ))

/-!
## Feature extractor (`backend/ml/features.py`)
-/

/-- Python `needle in hay` on strings. -/
def strContains (hay needle : String) : Bool :=
  decide (needle.toList <:+: hay.toList)

/-- Python `s.lower()`, modelled as per-character lowering (the strings
compared by the extractor are ASCII, where this coincides with
`str.lower`). -/
def pyLower (s : String) : String := String.mk (s.data.map Char.toLower)

/-- A normalized event record (`parsed_log` after the `.get` defaults of
`FeatureEngineer.extract` have been applied: every field is present). -/
structure EventRec where
  timestamp : ℚ
  sourceIp : String
  username : String
  endpoint : String
  userAgent : String
  statusCode : ℤ
  bytesSent : ℕ
  payload : String
  eventType : String
  success : Bool

/-- The values drawn by the `np.random.*` calls of `features.py`.  Each
call site reads its own field, so a single extraction is a deterministic
function of this record. -/
structure Rand where
  geoDistance : ℚ
  sessionDraw : ℚ
  loginRateFallback : ℚ
  requestRateFallback : ℚ
  failedAuthFallback : ℚ
  timeSinceFallback : ℚ
  uniqueIpsFallback : ℕ
  uniqueEndpointsFallback : ℕ

/-- Configured membership lists of `FeatureEngineer.__init__`. -/
structure FeatureConfig where
  knownIps : List String
  knownCountries : List String
  privilegedUsers : List String
  sensitiveEndpoints : List String
  knownUserAgents : List String

/-- The `FeatureEngineer` default configuration. -/
def defaultFeatureConfig : FeatureConfig where
  knownIps := ["127.0.0.1", "::1"]
  knownCountries := ["US", "ES", "FR", "DE", "GB"]
  privilegedUsers := ["root", "admin", "administrator"]
  sensitiveEndpoints := ["/admin", "/api/admin", "/wp-admin", "/phpmyadmin"]
  knownUserAgents := ["Mozilla", "Chrome", "Safari", "Edge", "Firefox", "curl", "wget"]

/-- `timestamp.hour` for a UTC epoch timestamp. -/
def hourOfDay (q : ℚ) : ℤ := ((pyInt q).ediv 3600).emod 24

/-- `timestamp.weekday()` (Monday = 0) for a UTC epoch timestamp
(1970-01-01 was a Thursday, weekday 3). -/
def dayOfWeek (q : ℚ) : ℤ := ((pyInt q).ediv 86400 + 3).emod 7

/-- The `LogFeatures` dataclass: the fixed 21-dimension feature vector. -/
structure LogFeatures where
  hour_of_day : ℤ
  day_of_week : ℤ
  is_weekend : Bool
  is_business_hours : Bool
  login_attempts_per_minute : ℚ
  requests_per_second : ℚ
  unique_ips_last_hour : ℕ
  unique_endpoints_accessed : ℕ
  failed_auth_rate : ℚ
  error_rate_4xx : ℚ
  error_rate_5xx : ℚ
  geographic_distance_km : ℚ
  is_known_country : Bool
  is_known_ip : Bool
  bytes_transferred : ℝ
  time_since_last_activity_sec : ℚ
  session_duration_sec : ℚ
  payload_entropy : ℝ
  is_privileged_user : Bool
  is_sensitive_endpoint : Bool
  is_known_user_agent : Bool

/-- `float(bool)` as used by `LogFeatures.to_array`. -/
def boolToFloat (b : Bool) : ℝ := if b then 1 else 0

/-- `LogFeatures.to_array()`: the fixed field order of the 21-vector. -/
noncomputable def LogFeatures.toArray (f : LogFeatures) : Fin 21 → ℝ :=
  ![(f.hour_of_day : ℝ), (f.day_of_week : ℝ), boolToFloat f.is_weekend,
    boolToFloat f.is_business_hours, (f.login_attempts_per_minute : ℝ),
    (f.requests_per_second : ℝ), (f.unique_ips_last_hour : ℝ),
    (f.unique_endpoints_accessed : ℝ), (f.failed_auth_rate : ℝ),
    (f.error_rate_4xx : ℝ), (f.error_rate_5xx : ℝ),
    (f.geographic_distance_km : ℝ), boolToFloat f.is_known_country,
    boolToFloat f.is_known_ip, f.bytes_transferred,
    (f.time_since_last_activity_sec : ℝ), (f.session_duration_sec : ℝ),
    f.payload_entropy, boolToFloat f.is_privileged_user,
    boolToFloat f.is_sensitive_endpoint, boolToFloat f.is_known_user_agent]

/-- `FeatureEngineer._calculate_entropy`: Shannon entropy (base 2) over the
UTF-8 byte counts of the payload, with the probability denominator being
the character length, exactly as in the source (`total_bytes = len(data)`);
empty payload gives `0.0`. -/
noncomputable def calcEntropy (data : String) : ℝ :=
  if data = "" then 0
  else
    let bytes := data.toUTF8.toList
    let total : ℝ := (data.length : ℝ)
    (bytes.dedup.map (fun b =>
      let p : ℝ := ((bytes.count b : ℕ) : ℝ) / total;
      -(p * Real.logb 2 p))).sum

/-- `FeatureEngineer._get_login_attempts_rate`: the cache query, with the
random mock fallback when it raises (only `ZeroDivisionError` can escape
the cache function; `redis.RedisError` is already caught inside it). -/
def engineerLoginRate (st : RedisState) (rand : Rand) (ip : String)
    (ts : ℚ) (window : ℤ) : ℚ :=
  match getLoginAttemptsRate st ip window ts with
  | .ok v => v
  | .error _ => rand.loginRateFallback

/-- `FeatureEngineer._get_request_rate`. -/
def engineerRequestRate (st : RedisState) (rand : Rand) (ip : String)
    (ts : ℚ) (window : ℤ) : ℚ :=
  match getRequestsPerSecond st ip window ts with
  | .ok v => v
  | .error _ => rand.requestRateFallback

/-- `FeatureEngineer._get_unique_ips`. -/
def engineerUniqueIps (st : RedisState) (rand : Rand) : ℕ :=
  match getUniqueIpsLastHour st with
  | .ok v => v
  | .error _ => rand.uniqueIpsFallback

/-- `FeatureEngineer._get_unique_endpoints`. -/
def engineerUniqueEndpoints (st : RedisState) (rand : Rand) (ip : String) : ℕ :=
  match getUniqueEndpointsAccessed st ip with
  | .ok v => v
  | .error _ => rand.uniqueEndpointsFallback

/-- `FeatureEngineer._get_failed_auth_rate`; note the cache function is
called without the event timestamp, so it uses the wall clock `now`. -/
def engineerFailedAuthRate (st : RedisState) (rand : Rand) (ip : String)
    (now : ℚ) (window : ℤ) : ℚ :=
  match getFailedAuthRate st ip window now with
  | .ok v => v
  | .error _ => rand.failedAuthFallback

/-- `FeatureEngineer._get_time_since_last_activity`. -/
def engineerTimeSince (st : RedisState) (rand : Rand) (ip : String)
    (ts : ℚ) : ℚ :=
  match getTimeSinceLastActivity st ip ts with
  | .ok v => v
  | .error _ => rand.timeSinceFallback

/-- `FeatureEngineer._get_session_duration`: time since last activity as a
proxy; a random draw while a session is "ongoing" (< 30 minutes). -/
def engineerSessionDuration (st : RedisState) (rand : Rand) (ip : String)
    (ts : ℚ) : ℚ :=
  let timeSince := engineerTimeSince st rand ip ts
  if timeSince < 1800 then rand.sessionDraw else 0

/-- Whether `_update_cache` treats the event as an authentication event:
`"auth" in event_type.lower() or "login" in event_type.lower()`. -/
def isAuthEvent (e : EventRec) : Bool :=
  strContains (pyLower e.eventType) "auth" || strContains (pyLower e.eventType) "login"

/-- `FeatureEngineer._update_cache`: records IP activity, the request, and
(for authentication events) the login attempt.  The enclosing
`try/except` catches any Redis failure, keeping the state reached so far;
the in-memory `_cache` list is append-only and never read by extraction,
so it is not modelled. -/
def updateCacheAgg (st : RedisState) (e : EventRec) : RedisState :=
  match recordIpActivity st e.sourceIp with
  | .error _ => st
  | .ok st1 =>
    match recordRequest st1 e.sourceIp e.endpoint e.timestamp with
    | .error _ => st1
    | .ok st2 =>
      if isAuthEvent e then
        match recordLoginAttempt st2 e.sourceIp e.success e.timestamp with
        | .error _ => st2
        | .ok st3 => st3
      else st2

/-- The read-only part of `FeatureEngineer.extract`: the feature vector as
a function of the aggregator state observed at call time (plus the event,
the random draws and the wall clock), with no write. -/
noncomputable def pureFeatures (cfg : FeatureConfig) (st : RedisState)
    (rand : Rand) (now : ℚ) (e : EventRec) : LogFeatures :=
  let hour := hourOfDay e.timestamp
  let day := dayOfWeek e.timestamp
  { hour_of_day := hour
    day_of_week := day
    is_weekend := day = 5 ∨ day = 6
    is_business_hours := 9 ≤ hour ∧ hour < 18
    login_attempts_per_minute := engineerLoginRate st rand e.sourceIp e.timestamp 60
    requests_per_second := engineerRequestRate st rand e.sourceIp e.timestamp 60
    unique_ips_last_hour := engineerUniqueIps st rand
    unique_endpoints_accessed := engineerUniqueEndpoints st rand e.sourceIp
    failed_auth_rate := engineerFailedAuthRate st rand e.sourceIp now 300
    error_rate_4xx := if 400 ≤ e.statusCode ∧ e.statusCode < 500 then 1 else 0
    error_rate_5xx := if 500 ≤ e.statusCode ∧ e.statusCode < 600 then 1 else 0
    geographic_distance_km := rand.geoDistance
    is_known_country := cfg.knownCountries.contains "US"
    is_known_ip := cfg.knownIps.contains e.sourceIp
    bytes_transferred := Real.log (1 + (e.bytesSent : ℝ))
    time_since_last_activity_sec := engineerTimeSince st rand e.sourceIp e.timestamp
    session_duration_sec := engineerSessionDuration st rand e.sourceIp e.timestamp
    payload_entropy := calcEntropy e.payload
    is_privileged_user := cfg.privilegedUsers.contains (pyLower e.username)
    is_sensitive_endpoint := cfg.sensitiveEndpoints.any (fun p => e.endpoint.startsWith p)
    is_known_user_agent := cfg.knownUserAgents.any (fun ua => strContains e.userAgent ua) }

/-- `FeatureEngineer.extract`: in source order, all aggregator-derived
features are read first (lines 219-250), the geographic data comes from the
stubbed lookup (`country = "US"`, random distance), and only then is the
event written into the aggregator by `_update_cache` (line 263). -/
noncomputable def extract (cfg : FeatureConfig) (st : RedisState)
    (rand : Rand) (now : ℚ) (e : EventRec) : LogFeatures × RedisState :=
  let hour := hourOfDay e.timestamp
  let day := dayOfWeek e.timestamp
  let isWeekend : Bool := day = 5 ∨ day = 6
  let isBusinessHours : Bool := 9 ≤ hour ∧ hour < 18
  let loginAttemptsPerMinute := engineerLoginRate st rand e.sourceIp e.timestamp 60
  let requestsPerSecond := engineerRequestRate st rand e.sourceIp e.timestamp 60
  let uniqueIpsLastHour := engineerUniqueIps st rand
  let uniqueEndpointsAccessed := engineerUniqueEndpoints st rand e.sourceIp
  let failedAuthRate := engineerFailedAuthRate st rand e.sourceIp now 300
  let errorRate4xx : ℚ := if 400 ≤ e.statusCode ∧ e.statusCode < 500 then 1 else 0
  let errorRate5xx : ℚ := if 500 ≤ e.statusCode ∧ e.statusCode < 600 then 1 else 0
  let geographicDistanceKm := rand.geoDistance
  let isKnownCountry := cfg.knownCountries.contains "US"
  let isKnownIp := cfg.knownIps.contains e.sourceIp
  let bytesTransferred := Real.log (1 + (e.bytesSent : ℝ))
  let timeSinceLastActivitySec := engineerTimeSince st rand e.sourceIp e.timestamp
  let sessionDurationSec := engineerSessionDuration st rand e.sourceIp e.timestamp
  let payloadEntropy := calcEntropy e.payload
  let isPrivilegedUser := cfg.privilegedUsers.contains (pyLower e.username)
  let isSensitiveEndpoint := cfg.sensitiveEndpoints.any (fun p => e.endpoint.startsWith p)
  let isKnownUserAgent := cfg.knownUserAgents.any (fun ua => strContains e.userAgent ua)
  let stAfter := updateCacheAgg st e
  (⟨hour, day, isWeekend, isBusinessHours, loginAttemptsPerMinute,
    requestsPerSecond, uniqueIpsLastHour, uniqueEndpointsAccessed,
    failedAuthRate, errorRate4xx, errorRate5xx, geographicDistanceKm,
    isKnownCountry, isKnownIp, bytesTransferred, timeSinceLastActivitySec,
    sessionDurationSec, payloadEntropy, isPrivilegedUser,
    isSensitiveEndpoint, isKnownUserAgent⟩, stAfter)

/-!
## Weight validation (`backend/ml/ensemble.py` `__init__`, `backend/config.py`)
-/

/-- `np.isclose(a, b)` with the NumPy default tolerances
`rtol = 1e-5`, `atol = 1e-8`: `|a - b| <= atol + rtol * |b|`. -/
def npIsclose (a b : ℚ) : Bool :=
  |a - b| ≤ 1 / 100000000 + (1 / 100000) * |b|

/-- The weight check of `AnomalyEnsemble.__init__` (lines 88-90): the
constructor raises `ValueError` unless `np.isclose(sum(weights), 1.0)`. -/
def ensembleInitAccepts (ws : List ℚ) : Bool :=
  npIsclose ws.sum 1

/-- `Settings.validate_ensemble_weights` (`config.py` lines 191-206):
exactly three weights and `abs(sum - 1.0) < 0.001`. -/
def configWeightsAccepted (ws : List ℚ) : Bool :=
  ws.length == 3 && decide (|ws.sum - 1| < 1 / 1000)

/-!
## The ensemble model (`backend/ml/ensemble.py`)
-/

/-- Scaled feature space: the fixed 21-dimension vectors. -/
abbrev Vec21 := Fin 21 → ℝ

/-- `max(0.0, min(1.0, x))` — the clamp of `predict` (line 269). -/
noncomputable def clamp01 (x : ℝ) : ℝ := max 0 (min 1 x)

/-- Nearest integer with ties to even, as Python's `round` (banker's
rounding). -/
noncomputable def pyRoundInt (y : ℝ) : ℤ :=
  if Int.fract y < 1 / 2 then ⌊y⌋
  else if 1 / 2 < Int.fract y then ⌈y⌉
  else if Even ⌊y⌋ then ⌊y⌋ else ⌊y⌋ + 1

/-- Python `round(x, 3)`. -/
noncomputable def round3 (x : ℝ) : ℝ := (pyRoundInt (x * 1000) : ℝ) / 1000

/-- A trained `AnomalyEnsemble`.  The fitted scikit-learn estimators are
opaque: `ifDecision` is `IsolationForest.decision_function` on the raw
vector, `gmmLogLik` is `GaussianMixture.score_samples` on the scaled
vector, and `scalerMean`/`scalerScale` are the fitted `StandardScaler`
parameters.  `centroids` is the `_cluster_centroids` dict as an
association list in iteration order; `dbscanEps` is `self.dbscan.eps`. -/
structure EnsembleModel where
  contamination : ℚ
  w0 : ℚ
  w1 : ℚ
  w2 : ℚ
  ifDecision : Vec21 → ℝ
  gmmLogLik : Vec21 → ℝ
  scalerMean : Vec21
  scalerScale : Vec21
  dbscanEps : ℝ
  centroids : List (ℤ × Vec21)
  isTrained : Bool
  modelVersion : String
  trainedAt : Option ℚ
  nTrainingSamples : ℕ
  xScaledTraining : List Vec21

/-- `StandardScaler.transform` applied to one vector. -/
noncomputable def scaledVec (m : EnsembleModel) (x : Vec21) : Vec21 :=
  fun i => (x i - m.scalerMean i) / m.scalerScale i

/-- `np.linalg.norm(a - b)`: Euclidean distance. -/
noncomputable def distE (a b : Vec21) : ℝ :=
  Real.sqrt (∑ i, (a i - b i) ^ 2)

/-- The loop of `_predict_dbscan` (lines 344-352): running minimum over
the centroid dict, starting from `min_distance = inf`, `nearest = -1`,
updating on strict improvement.  `none` plays the role of the infinite
initial distance. -/
noncomputable def nearestFold (z : Vec21) (items : List (ℤ × Vec21)) :
    Option (ℤ × ℝ) :=
  items.foldl
    (fun best lc =>
      let d := distE z lc.2
      match best with
      | none => some (lc.1, d)
      | some p => some (if d < p.2 then (lc.1, d) else p))
    none

/-- Python dict lookup `self._cluster_centroids[label]` on the
association-list model (dict keys are unique, so first match). -/
def dictGet (items : List (ℤ × Vec21)) (label : ℤ) : Option Vec21 :=
  match items with
  | [] => none
  | kv :: rest => if kv.1 = label then some kv.2 else dictGet rest label

/-- `AnomalyEnsemble._predict_dbscan` (lines 327-362): nearest-centroid
label, or `-1` (outlier) when there are no centroids or the nearest
distance exceeds `2 * eps`. -/
noncomputable def predictDbscanLabel (m : EnsembleModel) (z : Vec21) : ℤ :=
  match nearestFold z m.centroids with
  | none => -1
  | some p => if p.2 ≤ m.dbscanEps * 2 then p.1 else -1

/-- The DBSCAN score block of `predict` (lines 225-246) on the scaled
point: `0.9` for outliers, otherwise `min(distance_to_centroid / 10, 1)`.
The `else` fallback (cluster label absent from `_cluster_centroids`) is
unreachable because `_predict_dbscan` only returns keys of that dict or
`-1`; its terminal `dbscan_score = 0.5` is kept, the recomputation from
training points it would first attempt is elided as dead code. -/
noncomputable def dbscanScoreOn (m : EnsembleModel) (z : Vec21) : ℝ :=
  let pred := predictDbscanLabel m z
  if pred = -1 then 9 / 10
  else
    match dictGet m.centroids pred with
    | some centroid => min (distE z centroid / 10) 1
    | none => 1 / 2

/-- The Isolation Forest score of `predict` (line 218): sigmoid of the
decision value with steepness 10. -/
noncomputable def ifScoreOf (m : EnsembleModel) (x : Vec21) : ℝ :=
  1 / (1 + Real.exp (m.ifDecision x * 10))

/-- The GMM score of `predict` (line 257): sigmoid of the shifted
log-likelihood. -/
noncomputable def gmmScoreOf (m : EnsembleModel) (x : Vec21) : ℝ :=
  1 / (1 + Real.exp ((m.gmmLogLik (scaledVec m x) + 10) * (1 / 2)))

/-- `np.std([a, b, c])`: population standard deviation of the three
sub-scores (line 276). -/
noncomputable def std3 (a b c : ℝ) : ℝ :=
  let mu := (a + b + c) / 3
  Real.sqrt (((a - mu) ^ 2 + (b - mu) ^ 2 + (c - mu) ^ 2) / 3)

/-- The confidence tiers of `predict` (lines 278-283). -/
noncomputable def confidenceOf (scoreStd : ℝ) : String :=
  if scoreStd < 1 / 10 then "high"
  else if scoreStd < 2 / 10 then "medium"
  else "low"

/-- The feature-name table of `_get_important_features`. -/
def featureNames : Fin 21 → String :=
  !["hour_of_day", "day_of_week", "is_weekend", "is_business_hours",
    "login_attempts_per_minute", "requests_per_second",
    "unique_ips_last_hour", "unique_endpoints_accessed", "failed_auth_rate",
    "error_rate_4xx", "error_rate_5xx", "geographic_distance_km",
    "is_known_country", "is_known_ip", "bytes_transferred",
    "time_since_last_activity_sec", "session_duration_sec",
    "payload_entropy", "is_privileged_user", "is_sensitive_endpoint",
    "is_known_user_agent"]

/-- `AnomalyEnsemble._get_important_features`: absolute deviation from the
vector's own mean, normalized by its std (+1e-10); indices sorted
ascending by importance, last five reversed (`argsort[-top_k:][::-1]`);
tie order among equal importances is implementation-defined in NumPy and
fixed here by a stable ascending sort.  A function of the raw vector
only. -/
noncomputable def importantFeaturesOf (x : Vec21) : List (String × ℝ) :=
  let mu := (∑ i, x i) / 21
  let sd := Real.sqrt ((∑ i, (x i - mu) ^ 2) / 21)
  let imp := fun i => |x i - mu| / (sd + 1 / 10000000000)
  let sorted := (List.finRange 21).mergeSort (fun i j => decide (imp i ≤ imp j))
  (sorted.reverse.take 5).map (fun i => (featureNames i, imp i))

/-- The `AnomalyResult` dataclass.  `processing_time_ms` is wall-clock
metadata and is not modelled. -/
structure AnomalyResultM where
  is_anomaly : Bool
  risk_score : ℝ
  confidence : String
  isolation_forest_score : ℝ
  dbscan_score : ℝ
  gmm_score : ℝ
  important_features : List (String × ℝ)
  model_version : String

/-- Failure of `predict` on an untrained model. -/
inductive PredictErr where
  | notTrained
  deriving DecidableEq, Repr

/-- The body of `AnomalyEnsemble.predict` after the trained check, for a
well-formed 21-dimension vector `x`; `thrMed` is
`settings.alert_threshold_medium`. -/
noncomputable def predictResult (thrMed : ℚ) (m : EnsembleModel)
    (x : Vec21) : AnomalyResultM :=
  let ifScore := ifScoreOf m x
  let dbscanScore := dbscanScoreOn m (scaledVec m x)
  let gmmScore := gmmScoreOf m x
  let finalScore := (m.w0 : ℝ) * ifScore + (m.w1 : ℝ) * dbscanScore
      + (m.w2 : ℝ) * gmmScore
  let finalScore := clamp01 finalScore
  { is_anomaly := decide ((thrMed : ℝ) ≤ finalScore)
    risk_score := round3 finalScore
    confidence := confidenceOf (std3 ifScore dbscanScore gmmScore)
    isolation_forest_score := round3 ifScore
    dbscan_score := round3 dbscanScore
    gmm_score := round3 gmmScore
    important_features := importantFeaturesOf x
    model_version := m.modelVersion }

/-- `AnomalyEnsemble.predict` (lines 186-310): `RuntimeError` when the
model is not trained, otherwise the full result. -/
noncomputable def ensemblePredict (thrMed : ℚ) (m : EnsembleModel)
    (x : Vec21) : Except PredictErr AnomalyResultM :=
  if m.isTrained then .ok (predictResult thrMed m x) else .error .notTrained

/-!
## Model persistence (`AnomalyEnsemble.save` / `AnomalyEnsemble.load`)
-/

/-- The joblib artifact written by `AnomalyEnsemble.save` (lines 423-436):
one dict holding every fitted component and all metadata.  The pickled
`IsolationForest`, `GaussianMixture`, `StandardScaler` and `DBSCAN`
objects are represented by what `predict` reads from them (their decision
functions, fitted scaler parameters, and `eps`); joblib serialization
itself is taken to be faithful. -/
structure SavedEnsemble where
  isolation_forest : Vec21 → ℝ
  dbscan_eps : ℝ
  gmm : Vec21 → ℝ
  scaler_mean : Vec21
  scaler_scale : Vec21
  ensemble_weights : ℚ × ℚ × ℚ
  contamination : ℚ
  is_trained : Bool
  model_version : String
  trained_at : Option ℚ
  n_training_samples : ℕ
  x_scaled_training : List Vec21
  cluster_centroids : List (ℤ × Vec21)

/-- `AnomalyEnsemble.save`: every predict-relevant field and all metadata
go into the artifact. -/
def saveEnsemble (m : EnsembleModel) : SavedEnsemble where
  isolation_forest := m.ifDecision
  dbscan_eps := m.dbscanEps
  gmm := m.gmmLogLik
  scaler_mean := m.scalerMean
  scaler_scale := m.scalerScale
  ensemble_weights := (m.w0, m.w1, m.w2)
  contamination := m.contamination
  is_trained := m.isTrained
  model_version := m.modelVersion
  trained_at := m.trainedAt
  n_training_samples := m.nTrainingSamples
  x_scaled_training := m.xScaledTraining
  cluster_centroids := m.centroids

/-- Failure of `AnomalyEnsemble.load`: the constructor re-validates the
stored weights and raises `ValueError` when they fail `np.isclose`. -/
inductive EnsembleLoadErr where
  | valueError
  deriving DecidableEq, Repr

/-- `AnomalyEnsemble.load` (lines 446-491): construct a fresh instance
from the stored `contamination` and `ensemble_weights` (running the
`__init__` weight validation), then restore every fitted component and
all metadata from the artifact. -/
def loadEnsemble (a : SavedEnsemble) : Except EnsembleLoadErr EnsembleModel :=
  if ensembleInitAccepts [a.ensemble_weights.1, a.ensemble_weights.2.1,
      a.ensemble_weights.2.2] then
    .ok
      { contamination := a.contamination
        w0 := a.ensemble_weights.1
        w1 := a.ensemble_weights.2.1
        w2 := a.ensemble_weights.2.2
        ifDecision := a.isolation_forest
        gmmLogLik := a.gmm
        scalerMean := a.scaler_mean
        scalerScale := a.scaler_scale
        dbscanEps := a.dbscan_eps
        centroids := a.cluster_centroids
        isTrained := a.is_trained
        modelVersion := a.model_version
        trainedAt := a.trained_at
        nTrainingSamples := a.n_training_samples
        xScaledTraining := a.x_scaled_training }
  else .error .valueError

/-!
## Prediction service loader (`backend/ml/model_loader.py`)
-/

/-- The component slots of `ModelLoader` (each `None` until a load
succeeds).  The fitted objects are opaque and represented by tags. -/
structure LoaderState where
  isolation_forest : Option ℕ
  dbscan : Option ℕ
  gmm : Option ℕ
  scaler : Option ℕ
  deriving DecidableEq, Repr

/-- A deserialized loader artifact: which of the four component keys the
dict holds, and with what payload. -/
structure LoaderArtifact where
  isolation_forest : Option ℕ
  dbscan : Option ℕ
  gmm : Option ℕ
  scaler : Option ℕ
  deriving DecidableEq, Repr

/-- The errors `ModelLoader.load_model` raises: `FileNotFoundError` for a
missing path, `ValueError` for anything that fails inside the `try`
(either `joblib.load` itself or a missing dict key). -/
inductive LoaderErr where
  | fileNotFound
  | valueError
  deriving DecidableEq, Repr

/-- `ModelLoader.load_model` (lines 61-107) as a state transition:
check existence, deserialize, then assign the four components one by one
in source order (`isolation_forest`, `dbscan`, `gmm`, `scaler`).  A
missing key raises `KeyError` at its access, which the `except` turns
into `ValueError` — but the assignments already executed stay. -/
def loaderLoadModel (fileExists : Bool) (content : Option LoaderArtifact)
    (s : LoaderState) : Except LoaderErr Unit × LoaderState :=
  if ¬fileExists then (.error .fileNotFound, s)
  else
    match content with
    | none => (.error .valueError, s)
    | some a =>
      match a.isolation_forest with
      | none => (.error .valueError, s)
      | some vIf =>
        let s1 := { s with isolation_forest := some vIf }
        match a.dbscan with
        | none => (.error .valueError, s1)
        | some vDb =>
          let s2 := { s1 with dbscan := some vDb }
          match a.gmm with
          | none => (.error .valueError, s2)
          | some vGmm =>
            let s3 := { s2 with gmm := some vGmm }
            match a.scaler with
            | none => (.error .valueError, s3)
            | some vSc => (.ok (), { s3 with scaler := some vSc })

/-- `ModelLoader.is_loaded`: all four components present. -/
def loaderIsLoaded (s : LoaderState) : Bool :=
  s.isolation_forest.isSome && s.dbscan.isSome && s.gmm.isSome && s.scaler.isSome

/-!
## Risk-tier mapping (`backend/api/routes/analysis.py`)
-/

/-- The `RiskLevel` enum (lines 114-121). -/
inductive RiskLevel where
  | critical
  | high
  | medium
  | low
  | normal
  deriving DecidableEq, Repr

/-- The `RecommendedAction` enum (lines 124-131). -/
inductive RecommendedAction where
  | BLOCK_IP
  | REQUIRE_MFA
  | ALERT_ADMIN
  | MONITOR
  | NO_ACTION
  deriving DecidableEq, Repr

/-- What the threshold chain of `analyze_log` decides (lines 356-376). -/
structure RiskDecision where
  risk_level : RiskLevel
  is_anomaly : Bool
  confidence : String
  recommended_action : RecommendedAction
  deriving DecidableEq, Repr

/-- The risk-level mapping of `analyze_log` (lines 356-376): descending
threshold chain `high`, `medium`, `low`, else `normal`. -/
def riskDecision (thrHigh thrMed thrLow score : ℚ) : RiskDecision :=
  if thrHigh ≤ score then ⟨.high, true, "high", .BLOCK_IP⟩
  else if thrMed ≤ score then ⟨.medium, true, "medium", .REQUIRE_MFA⟩
  else if thrLow ≤ score then ⟨.low, true, "low", .MONITOR⟩
  else ⟨.normal, false, "high", .NO_ACTION⟩

/-- `settings.alert_threshold_high` default. -/
def defaultThrHigh : ℚ := 8 / 10

/-- `settings.alert_threshold_medium` default. -/
def defaultThrMed : ℚ := 6 / 10

/-- `settings.alert_threshold_low` default. -/
def defaultThrLow : ℚ := 4 / 10

/-!
## Concrete instances used to witness the theorems
-/

/-- A concrete trained ensemble: identity-ish scaler, one cluster centroid
at the origin with label `0`, default weights `[0.5, 0.3, 0.2]` and
default `eps = 1.5`. -/
noncomputable def sampleModel : EnsembleModel where
  contamination := 3 / 100
  w0 := 1 / 2
  w1 := 3 / 10
  w2 := 1 / 5
  ifDecision := fun _ => 0
  gmmLogLik := fun _ => 0
  scalerMean := fun _ => 0
  scalerScale := fun _ => 1
  dbscanEps := 3 / 2
  centroids := [(0, fun _ => 0)]
  isTrained := true
  modelVersion := "v1.0.0"
  trainedAt := none
  nTrainingSamples := 0
  xScaledTraining := []

/-- A concrete authentication event (a failed privileged login). -/
def sampleEvent : EventRec where
  timestamp := 1000
  sourceIp := "203.0.113.7"
  username := "root"
  endpoint := "/admin"
  userAgent := "curl/8.0"
  statusCode := 401
  bytesSent := 0
  payload := ""
  eventType := "auth_failure"
  success := false

/-- Concrete values for the random draws. -/
def sampleRand : Rand where
  geoDistance := 42
  sessionDraw := 77
  loginRateFallback := 3
  requestRateFallback := 1
  failedAuthFallback := 1 / 10
  timeSinceFallback := 5
  uniqueIpsFallback := 9
  uniqueEndpointsFallback := 4

/-!
## Theorems
-/

/-- C4 counterexample: the weights `[0.5, 0.3, 0.2005]` sum to `1.0005`,
which differs from `1.0` by no more than `1e-3`, so the claim says the
constructor accepts them — but `AnomalyEnsemble.__init__` checks
`np.isclose` with its default tolerance (about `1.00001e-5`) and raises. -/
theorem C4_counterexample :
    ensembleInitAccepts [1 / 2, 3 / 10, 401 / 2000] = false ∧
    |([1 / 2, 3 / 10, 401 / 2000] : List ℚ).sum - 1| ≤ 1 / 1000 := by
  constructor
  · simp only [ensembleInitAccepts, npIsclose, List.sum_cons, List.sum_nil,
      decide_eq_false_iff_not, not_le, abs_one, mul_one]
    rw [lt_abs]
    left
    norm_num
  · simp only [List.sum_cons, List.sum_nil]
    rw [abs_le]
    constructor <;> norm_num

/-- C4, amended: `AnomalyEnsemble.__init__` rejects the weights iff their
sum differs from `1.0` by more than the `np.isclose` default tolerance
`1e-8 + 1e-5` (not `1e-3`); the separate config-level validator accepts
iff there are exactly three weights and the sum differs from `1.0` by
strictly less than `1e-3`.  `[0.5, 0.3, 0.3]` is rejected and
`[0.5, 0.3, 0.2]` accepted by both. -/
theorem C4_weight_validation :
    (∀ ws : List ℚ,
        ensembleInitAccepts ws = false ↔ 1 / 100000000 + 1 / 100000 < |ws.sum - 1|) ∧
    (∀ ws : List ℚ,
        configWeightsAccepted ws = true ↔ ws.length = 3 ∧ |ws.sum - 1| < 1 / 1000) ∧
    ensembleInitAccepts [1 / 2, 3 / 10, 3 / 10] = false ∧
    ensembleInitAccepts [1 / 2, 3 / 10, 1 / 5] = true ∧
    configWeightsAccepted [1 / 2, 3 / 10, 3 / 10] = false ∧
    configWeightsAccepted [1 / 2, 3 / 10, 1 / 5] = true := by
  refine ⟨fun ws => ?_, fun ws => ?_, ?_, ?_, ?_, ?_⟩
  · simp only [ensembleInitAccepts, npIsclose, decide_eq_false_iff_not, not_le,
      abs_one, mul_one]
  · simp [configWeightsAccepted]
  · simp only [ensembleInitAccepts, npIsclose, List.sum_cons, List.sum_nil,
      decide_eq_false_iff_not, not_le, abs_one, mul_one]
    rw [lt_abs]
    left
    norm_num
  · simp only [ensembleInitAccepts, npIsclose, List.sum_cons, List.sum_nil,
      decide_eq_true_eq, abs_one, mul_one]
    rw [show (1 / 2 + (3 / 10 + (1 / 5 + 0)) : ℚ) - 1 = 0 by norm_num, abs_zero]
    norm_num
  · simp only [configWeightsAccepted, List.sum_cons, List.sum_nil,
      Bool.and_eq_false_iff, decide_eq_false_iff_not, not_lt]
    right
    rw [le_abs]
    left
    norm_num
  · simp only [configWeightsAccepted, List.sum_cons, List.sum_nil,
      Bool.and_eq_true, beq_iff_eq, List.length_cons, List.length_nil,
      decide_eq_true_eq]
    refine ⟨trivial, ?_⟩
    rw [show (1 / 2 + (3 / 10 + (1 / 5 + 0)) : ℚ) - 1 = 0 by norm_num, abs_zero]
    norm_num

/-- C8 counterexample: at the top risk score `1.0` — and thus at every
score, by `C8_risk_tiers` — the mapping of `analyze_log` yields `high`,
never the claimed-reachable `critical` tier. -/
theorem C8_counterexample :
    riskDecision defaultThrHigh defaultThrMed defaultThrLow 1 =
      ⟨RiskLevel.high, true, "high", RecommendedAction.BLOCK_IP⟩ ∧
    RiskLevel.high ≠ RiskLevel.critical := by
  constructor
  · norm_num [riskDecision, defaultThrHigh]
  · decide

/-- C8, amended: the threshold chain of `analyze_log` is a total map onto
`{normal, low, medium, high}` — the declared `critical` tier is never
produced for any thresholds or score — pairing `normal` with `NO_ACTION`,
`low` with `MONITOR`, `medium` with `REQUIRE_MFA` and `high` with
`BLOCK_IP`; each of the four tiers is reachable under the default
thresholds `0.4 / 0.6 / 0.8`. -/
theorem C8_risk_tiers :
    (∀ thrHigh thrMed thrLow q : ℚ,
        (riskDecision thrHigh thrMed thrLow q).risk_level ≠ RiskLevel.critical) ∧
    riskDecision defaultThrHigh defaultThrMed defaultThrLow 0 =
      ⟨RiskLevel.normal, false, "high", RecommendedAction.NO_ACTION⟩ ∧
    riskDecision defaultThrHigh defaultThrMed defaultThrLow (1 / 2) =
      ⟨RiskLevel.low, true, "low", RecommendedAction.MONITOR⟩ ∧
    riskDecision defaultThrHigh defaultThrMed defaultThrLow (7 / 10) =
      ⟨RiskLevel.medium, true, "medium", RecommendedAction.REQUIRE_MFA⟩ ∧
    riskDecision defaultThrHigh defaultThrMed defaultThrLow (9 / 10) =
      ⟨RiskLevel.high, true, "high", RecommendedAction.BLOCK_IP⟩ := by
  refine ⟨fun thrHigh thrMed thrLow q => ?_,
    by norm_num [riskDecision, defaultThrHigh, defaultThrMed, defaultThrLow],
    by norm_num [riskDecision, defaultThrHigh, defaultThrMed, defaultThrLow],
    by norm_num [riskDecision, defaultThrHigh, defaultThrMed, defaultThrLow],
    by norm_num [riskDecision, defaultThrHigh, defaultThrMed, defaultThrLow]⟩
  unfold riskDecision
  split_ifs <;> simp

/-- C6 counterexample: a loader holding a complete previous model, fed an
artifact that deserializes but only contains the `isolation_forest` key,
raises `ValueError` — yet the resulting state is not the previous model:
its `isolation_forest` slot was already overwritten. -/
theorem C6_counterexample :
    loaderLoadModel true (some ⟨some 10, none, none, none⟩)
        ⟨some 1, some 2, some 3, some 4⟩ =
      (.error .valueError, ⟨some 10, some 2, some 3, some 4⟩) ∧
    (loaderLoadModel true (some ⟨some 10, none, none, none⟩)
        ⟨some 1, some 2, some 3, some 4⟩).2 ≠
      (⟨some 1, some 2, some 3, some 4⟩ : LoaderState) := by
  constructor
  · rfl
  · decide

/-- C6, amended: a missing model file raises `FileNotFoundError` and an
artifact that fails to deserialize raises `ValueError`, both leaving the
previously loaded state untouched; a complete artifact replaces all four
components and leaves the loader serving.  No error path silently
substitutes a default model.  However (see the counterexample), an
artifact missing a component key raises only after overwriting the
components that precede it, so the previous model is preserved only up to
that partial overwrite. -/
theorem C6_load_model :
    (∀ (content : Option LoaderArtifact) (s : LoaderState),
        loaderLoadModel false content s = (.error .fileNotFound, s)) ∧
    (∀ s : LoaderState, loaderLoadModel true none s = (.error .valueError, s)) ∧
    (∀ (s : LoaderState) (a b c d : ℕ),
        loaderLoadModel true (some ⟨some a, some b, some c, some d⟩) s =
          (.ok (), ⟨some a, some b, some c, some d⟩) ∧
        loaderIsLoaded ⟨some a, some b, some c, some d⟩ = true) := by
  refine ⟨fun content s => ?_, fun s => ?_, fun s a b c d => ⟨?_, ?_⟩⟩ <;>
    simp [loaderLoadModel, loaderIsLoaded]

theorem clamp01_nonneg (x : ℝ) : 0 ≤ clamp01 x := le_max_left 0 _

theorem clamp01_le_one (x : ℝ) : clamp01 x ≤ 1 :=
  max_le zero_le_one (min_le_left 1 x)

theorem floor_le_pyRoundInt (y : ℝ) : ⌊y⌋ ≤ pyRoundInt y := by
  unfold pyRoundInt
  split_ifs with h1 h2 h3
  · exact le_refl _
  · exact Int.floor_le_ceil y
  · exact le_refl _
  · omega

theorem pyRoundInt_le_ceil (y : ℝ) : pyRoundInt y ≤ ⌈y⌉ := by
  unfold pyRoundInt
  split_ifs with h1 h2 h3
  · exact Int.floor_le_ceil y
  · exact le_refl _
  · exact Int.floor_le_ceil y
  · have hf : Int.fract y = 1 / 2 := le_antisymm (not_lt.mp h2) (not_lt.mp h1)
    have hy : y - (⌊y⌋ : ℝ) = 1 / 2 := by
      rw [Int.self_sub_floor]
      exact hf
    have hlt : (⌊y⌋ : ℝ) < (⌈y⌉ : ℝ) := by
      have hle : y ≤ (⌈y⌉ : ℝ) := Int.le_ceil y
      linarith
    have : ⌊y⌋ < ⌈y⌉ := by exact_mod_cast hlt
    omega

theorem round3_mem_unit (x : ℝ) (h0 : 0 ≤ x) (h1 : x ≤ 1) :
    0 ≤ round3 x ∧ round3 x ≤ 1 := by
  unfold round3
  constructor
  · apply div_nonneg _ (by norm_num)
    have hfl : (0 : ℤ) ≤ ⌊x * 1000⌋ := Int.floor_nonneg.mpr (by positivity)
    exact_mod_cast le_trans hfl (floor_le_pyRoundInt (x * 1000))
  · rw [div_le_one (by norm_num)]
    have hc : ⌈x * 1000⌉ ≤ 1000 := by
      rw [Int.ceil_le]
      push_cast
      nlinarith
    exact_mod_cast le_trans (pyRoundInt_le_ceil (x * 1000)) hc

/-- C1: for every trained ensemble and every 21-dimension vector — all-zero
and extreme values included, since the vector is universally quantified —
`AnomalyEnsemble.predict` returns the result whose `risk_score` is the
weight-by-weight sum of the three sub-model scores clamped to `[0, 1]`
(then reported at 3 decimals), and that `risk_score` lies in `[0, 1]`. -/
theorem C1_risk_score_bounds :
    ∀ (thrMed : ℚ) (m : EnsembleModel) (x : Vec21),
      ensemblePredict thrMed m x =
        (if m.isTrained then .ok (predictResult thrMed m x)
         else .error PredictErr.notTrained) ∧
      (predictResult thrMed m x).risk_score =
        round3 (clamp01 ((m.w0 : ℝ) * ifScoreOf m x
          + (m.w1 : ℝ) * dbscanScoreOn m (scaledVec m x)
          + (m.w2 : ℝ) * gmmScoreOf m x)) ∧
      0 ≤ (predictResult thrMed m x).risk_score ∧
      (predictResult thrMed m x).risk_score ≤ 1 := by
  intro thrMed m x
  refine ⟨rfl, rfl, ?_, ?_⟩
  · exact (round3_mem_unit _ (clamp01_nonneg _) (clamp01_le_one _)).1
  · exact (round3_mem_unit _ (clamp01_nonneg _) (clamp01_le_one _)).2

/-- C7: saving an ensemble and loading it back succeeds (the stored
weights re-pass the constructor validation they already passed) and yields
a model identical in every predict-relevant field, so `predict()` — all
three sub-scores, `risk_score`, confidence and feature importance — is
identical on every fixed vector.  Serialization itself (joblib) is taken
to be faithful. -/
theorem C7_save_load_roundtrip :
    ∀ m : EnsembleModel,
      ensembleInitAccepts [m.w0, m.w1, m.w2] = true →
      loadEnsemble (saveEnsemble m) = .ok m ∧
      ∀ (thrMed : ℚ) (x : Vec21),
        (loadEnsemble (saveEnsemble m)).map
            (fun m2 => ensemblePredict thrMed m2 x) =
          .ok (ensemblePredict thrMed m x) := by
  intro m hw
  have hload : loadEnsemble (saveEnsemble m) = .ok m := by
    simp [loadEnsemble, saveEnsemble, hw]
  refine ⟨hload, fun thrMed x => ?_⟩
  rw [hload]
  rfl

/-- C7 witness: the round trip evaluated on the concrete sample model. -/
theorem C7_witness :
    ensembleInitAccepts [sampleModel.w0, sampleModel.w1, sampleModel.w2] = true ∧
    loadEnsemble (saveEnsemble sampleModel) = .ok sampleModel := by
  have hw : ensembleInitAccepts [sampleModel.w0, sampleModel.w1, sampleModel.w2] = true := by
    show ensembleInitAccepts [1 / 2, 3 / 10, 1 / 5] = true
    simp only [ensembleInitAccepts, npIsclose, List.sum_cons, List.sum_nil,
      decide_eq_true_eq, abs_one, mul_one]
    rw [show (1 / 2 + (3 / 10 + (1 / 5 + 0)) : ℚ) - 1 = 0 by norm_num, abs_zero]
    norm_num
  exact ⟨hw, (C7_save_load_roundtrip sampleModel hw).1⟩


theorem loginAllKey_ne_loginFailedKey (ip : String) :
    loginAllKey ip ≠ loginFailedKey ip := by
  intro h
  have hlen : (loginAllKey ip).length = (loginFailedKey ip).length :=
    congrArg String.length h
  rw [loginAllKey, loginFailedKey, String.length_append, String.length_append] at hlen
  have h1 : ("login_attempts:" : String).length = 15 := rfl
  have h2 : ("login_attempts:failed:" : String).length = 22 := rfl
  omega

theorem singletonZset_up (st : RedisState) (key : String) (s : ℤ) :
    (singletonZset st key s).up = st.up := rfl

theorem singletonZset_sets (st : RedisState) (key : String) (s : ℤ) :
    (singletonZset st key s).sets = st.sets := rfl

theorem singletonZset_zsets_self (st : RedisState) (key : String) (s : ℤ) :
    (singletonZset st key s).zsets key = [s] := by
  simp [singletonZset]

theorem singletonZset_zsets_ne (st : RedisState) (key : String) (s : ℤ)
    (k : String) (h : k ≠ key) :
    (singletonZset st key s).zsets k = st.zsets k := by
  simp [singletonZset, h]

theorem addSetMember_up (st : RedisState) (key m : String) :
    (addSetMember st key m).up = st.up := rfl

theorem addSetMember_zsets (st : RedisState) (key m : String) :
    (addSetMember st key m).zsets = st.zsets := rfl

theorem zadd_mem (st : RedisState) (key : String) (s : ℤ)
    (hup : st.up = true) (hmem : s ∈ st.zsets key) :
    zadd st key s = .ok st := by
  have hfun : (fun k => if k = key then
      (if s ∈ st.zsets key then st.zsets key else s :: st.zsets key)
      else st.zsets k) = st.zsets := by
    funext k
    rw [if_pos hmem]
    split_ifs with h1
    · rw [h1]
    · rfl
  unfold zadd
  rw [if_pos hup, hfun]

theorem zadd_fresh (st : RedisState) (key : String) (s : ℤ)
    (hup : st.up = true) (hkey : st.zsets key = []) :
    zadd st key s = .ok (singletonZset st key s) := by
  have hmem : s ∉ st.zsets key := by simp [hkey]
  unfold zadd singletonZset
  rw [if_pos hup]
  simp [hkey]

theorem sadd_ok (st : RedisState) (key m : String) (hup : st.up = true) :
    sadd st key m = .ok (addSetMember st key m) := by
  unfold sadd addSetMember
  rw [if_pos hup]

theorem addSetMember_of_mem (st : RedisState) (key m : String)
    (hmem : m ∈ st.sets key) : addSetMember st key m = st := by
  have hfun : (fun k => if k = key then
      (if m ∈ st.sets key then st.sets key else m :: st.sets key)
      else st.sets k) = st.sets := by
    funext k
    rw [if_pos hmem]
    split_ifs with h1
    · rw [h1]
    · rfl
  unfold addSetMember
  rw [hfun]

theorem getLoginAttemptsRate_eval (st : RedisState) (ip : String) (w : ℤ)
    (t : ℚ) (hup : st.up = true) (hw : w ≠ 0) :
    getLoginAttemptsRate st ip w t =
      .ok ((((st.zsets (loginAllKey ip)).countP
          (fun s => decide (pyInt t - w ≤ s ∧ s ≤ pyInt t)) : ℕ) : ℚ)
        / ((w : ℚ) / 60)) := by
  simp [getLoginAttemptsRate, zcount, hup, hw]

theorem getLoginAttemptsRate_zero_window (st : RedisState) (ip : String)
    (t : ℚ) (hup : st.up = true) :
    getLoginAttemptsRate st ip 0 t = .error .zeroDivision := by
  simp [getLoginAttemptsRate, zcount, hup]

theorem recordLoginAttempt_true_fresh (st : RedisState) (ip : String)
    (t : ℚ) (hup : st.up = true) (hkey : st.zsets (loginAllKey ip) = []) :
    recordLoginAttempt st ip true t =
      .ok (singletonZset st (loginAllKey ip) (pyInt t)) := by
  unfold recordLoginAttempt
  rw [zadd_fresh st (loginAllKey ip) (pyInt t) hup hkey]
  rfl

theorem recordLoginAttempt_false_fresh (st : RedisState) (ip : String)
    (t : ℚ) (hup : st.up = true) (hkeyAll : st.zsets (loginAllKey ip) = [])
    (hkeyF : st.zsets (loginFailedKey ip) = []) :
    recordLoginAttempt st ip false t =
      .ok (singletonZset (singletonZset st (loginAllKey ip) (pyInt t))
            (loginFailedKey ip) (pyInt t)) := by
  have hne := loginAllKey_ne_loginFailedKey ip
  unfold recordLoginAttempt
  rw [zadd_fresh st (loginAllKey ip) (pyInt t) hup hkeyAll]
  show zadd (singletonZset st (loginAllKey ip) (pyInt t)) (loginFailedKey ip)
      (pyInt t) =
    .ok (singletonZset (singletonZset st (loginAllKey ip) (pyInt t))
          (loginFailedKey ip) (pyInt t))
  refine zadd_fresh _ (loginFailedKey ip) (pyInt t) hup ?_
  rw [singletonZset_zsets_ne st (loginAllKey ip) (pyInt t) (loginFailedKey ip)
    (Ne.symm hne)]
  exact hkeyF

theorem recordLoginAttempt_false_mem (st : RedisState) (ip : String)
    (t : ℚ) (hup : st.up = true)
    (hmemA : pyInt t ∈ st.zsets (loginAllKey ip))
    (hmemF : pyInt t ∈ st.zsets (loginFailedKey ip)) :
    recordLoginAttempt st ip false t = .ok st := by
  unfold recordLoginAttempt
  rw [zadd_mem st (loginAllKey ip) (pyInt t) hup hmemA]
  show zadd st (loginFailedKey ip) (pyInt t) = .ok st
  exact zadd_mem st (loginFailedKey ip) (pyInt t) hup hmemF

theorem recordRequest_fresh (st : RedisState) (ip ep : String) (t : ℚ)
    (hup : st.up = true) (hkey : st.zsets (requestsKey ip) = []) :
    recordRequest st ip ep t =
      .ok (addSetMember (singletonZset st (requestsKey ip) (pyInt t))
            (endpointsKey ip) ep) := by
  unfold recordRequest
  rw [zadd_fresh st (requestsKey ip) (pyInt t) hup hkey]
  show sadd (singletonZset st (requestsKey ip) (pyInt t)) (endpointsKey ip) ep =
    .ok (addSetMember (singletonZset st (requestsKey ip) (pyInt t))
          (endpointsKey ip) ep)
  exact sadd_ok _ (endpointsKey ip) ep hup

theorem recordRequest_mem (st : RedisState) (ip ep : String) (t : ℚ)
    (hup : st.up = true) (hmemR : pyInt t ∈ st.zsets (requestsKey ip))
    (hmemE : ep ∈ st.sets (endpointsKey ip)) :
    recordRequest st ip ep t = .ok st := by
  unfold recordRequest
  rw [zadd_mem st (requestsKey ip) (pyInt t) hup hmemR]
  show sadd st (endpointsKey ip) ep = .ok st
  rw [sadd_ok st (endpointsKey ip) ep hup,
    addSetMember_of_mem st (endpointsKey ip) ep hmemE]

/-- C5 counterexample: one record at epoch second 1000, then the window
count with `window_seconds = 0` taken at the same instant: the claim says
this returns 0 and never errors, but the rate computation divides by
`window_seconds / 60 = 0` and raises `ZeroDivisionError` (and the record
at exactly `as_of` would even be inside the closed count interval). -/
theorem C5_counterexample :
    (recordLoginAttempt (emptyRedis true) "10.0.0.1" true 1000).bind
        (fun stR => getLoginAttemptsRate stR "10.0.0.1" 0 1000) =
      .error PyErr.zeroDivision := by
  rw [recordLoginAttempt_true_fresh (emptyRedis true) "10.0.0.1" 1000 rfl rfl]
  simp only [Except.bind]
  exact getLoginAttemptsRate_zero_window _ _ _ rfl

/-- C5, amended: on a reachable store with no prior history for the key,
one recorded login attempt followed by the 60-second window count at the
same timestamp returns 1 (attempt per minute); a count whose `as_of` is
earlier than the recorded timestamp minus the window returns 0; but a
count with `window_seconds = 0` raises `ZeroDivisionError` (the count
interval is closed, `[as_of - window, as_of]`, so the record at exactly
`as_of` is even counted before the division fails). -/
theorem C5_window_counts :
    ∀ (st : RedisState) (ip : String) (t asOf : ℚ) (w : ℤ),
      st.up = true →
      st.zsets (loginAllKey ip) = [] →
      ((recordLoginAttempt st ip true t).bind
          (fun stR => getLoginAttemptsRate stR ip 60 t) = .ok 1
       ∧ (recordLoginAttempt st ip true t).bind
          (fun stR => getLoginAttemptsRate stR ip 0 t) = .error PyErr.zeroDivision
       ∧ (0 < w → pyInt asOf < pyInt t - w →
          (recordLoginAttempt st ip true t).bind
            (fun stR => getLoginAttemptsRate stR ip w asOf) = .ok 0)) := by
  intro st ip t asOf w hup hkey
  rw [recordLoginAttempt_true_fresh st ip t hup hkey]
  simp only [Except.bind]
  have hupS : (singletonZset st (loginAllKey ip) (pyInt t)).up = true := hup
  have hz := singletonZset_zsets_self st (loginAllKey ip) (pyInt t)
  refine ⟨?_, ?_, fun hw hlt => ?_⟩
  · rw [getLoginAttemptsRate_eval _ ip 60 t hupS (by norm_num), hz]
    have hc : (decide (pyInt t - 60 ≤ pyInt t ∧ pyInt t ≤ pyInt t)) = true := by
      simp only [decide_eq_true_eq]
      omega
    simp only [List.countP_cons, List.countP_nil, hc]
    norm_num
  · exact getLoginAttemptsRate_zero_window _ _ _ hupS
  · rw [getLoginAttemptsRate_eval _ ip w asOf hupS (by omega), hz]
    have hc : (decide (pyInt asOf - w ≤ pyInt t ∧ pyInt t ≤ pyInt asOf)) = false := by
      simp only [decide_eq_false_iff_not]
      omega
    simp only [List.countP_cons, List.countP_nil, hc]
    norm_num

/-- C5 witness: the amended statement applied at a concrete fresh store,
key `10.0.0.1`, record at epoch 1000, far-past query at epoch 0 with a
5-second window. -/
theorem C5_witness :
    ((emptyRedis true).up = true ∧
      (emptyRedis true).zsets (loginAllKey "10.0.0.1") = []) ∧
    (recordLoginAttempt (emptyRedis true) "10.0.0.1" true 1000).bind
        (fun stR => getLoginAttemptsRate stR "10.0.0.1" 60 1000) = .ok 1 ∧
    (recordLoginAttempt (emptyRedis true) "10.0.0.1" true 1000).bind
        (fun stR => getLoginAttemptsRate stR "10.0.0.1" 5 0) = .ok 0 := by
  have h := C5_window_counts (emptyRedis true) "10.0.0.1" 1000 0 5 rfl rfl
  refine ⟨⟨rfl, rfl⟩, h.1, h.2.2 (by norm_num) ?_⟩
  show pyInt 0 < pyInt 1000 - 5
  norm_num [pyInt]

/-- C10: each timeline stores at most one entry per whole second — the
sorted-set member is `int(timestamp)` itself, so two records of the same
kind and key whose timestamps truncate to the same second leave a single
entry, and an immediately following 60-second window count returns 1, not
2.  Shown for the all-attempts and failed-attempts login timelines (a
failed attempt feeds both) and for the request timeline. -/
theorem C10_per_second_dedup :
    ∀ (st : RedisState) (ip ep : String) (t1 t2 : ℚ),
      st.up = true →
      pyInt t1 = pyInt t2 →
      (st.zsets (loginAllKey ip) = [] → st.zsets (loginFailedKey ip) = [] →
        (recordLoginAttempt st ip false t1).bind (fun s1 =>
          (recordLoginAttempt s1 ip false t2).map (fun s2 =>
            ((s2.zsets (loginAllKey ip)).length,
             (s2.zsets (loginFailedKey ip)).length,
             getLoginAttemptsRate s2 ip 60 t2))) = .ok (1, 1, .ok 1))
      ∧ (st.zsets (requestsKey ip) = [] →
        (recordRequest st ip ep t1).bind (fun s1 =>
          (recordRequest s1 ip ep t2).map (fun s2 =>
            ((s2.zsets (requestsKey ip)).length,
             zcount s2 (requestsKey ip) (pyInt t2 - 60) (pyInt t2)))) =
          .ok (1, .ok 1)) := by
  intro st ip ep t1 t2 hup ht
  have hne := loginAllKey_ne_loginFailedKey ip
  constructor
  · intro hkeyAll hkeyF
    rw [recordLoginAttempt_false_fresh st ip t1 hup hkeyAll hkeyF]
    simp only [Except.bind]
    have hupS : (singletonZset (singletonZset st (loginAllKey ip) (pyInt t1))
        (loginFailedKey ip) (pyInt t1)).up = true := hup
    have hA : (singletonZset (singletonZset st (loginAllKey ip) (pyInt t1))
        (loginFailedKey ip) (pyInt t1)).zsets (loginAllKey ip) = [pyInt t1] := by
      rw [singletonZset_zsets_ne _ (loginFailedKey ip) (pyInt t1)
        (loginAllKey ip) hne]
      exact singletonZset_zsets_self _ _ _
    have hF : (singletonZset (singletonZset st (loginAllKey ip) (pyInt t1))
        (loginFailedKey ip) (pyInt t1)).zsets (loginFailedKey ip) = [pyInt t1] :=
      singletonZset_zsets_self _ _ _
    rw [recordLoginAttempt_false_mem _ ip t2 hupS
      (by rw [hA, ← ht]; exact List.mem_singleton_self _)
      (by rw [hF, ← ht]; exact List.mem_singleton_self _)]
    simp only [Except.map]
    rw [getLoginAttemptsRate_eval _ ip 60 t2 hupS (by norm_num), hA, hF]
    have hc : (decide (pyInt t2 - 60 ≤ pyInt t1 ∧ pyInt t1 ≤ pyInt t2)) = true := by
      simp only [decide_eq_true_eq]
      omega
    simp only [List.length_cons, List.length_nil, List.countP_cons,
      List.countP_nil, hc]
    norm_num
  · intro hkeyReq
    rw [recordRequest_fresh st ip ep t1 hup hkeyReq]
    simp only [Except.bind]
    have hupS : (addSetMember (singletonZset st (requestsKey ip) (pyInt t1))
        (endpointsKey ip) ep).up = true := hup
    have hR : (addSetMember (singletonZset st (requestsKey ip) (pyInt t1))
        (endpointsKey ip) ep).zsets (requestsKey ip) = [pyInt t1] := by
      rw [addSetMember_zsets]
      exact singletonZset_zsets_self _ _ _
    have hE : ep ∈ (addSetMember (singletonZset st (requestsKey ip) (pyInt t1))
        (endpointsKey ip) ep).sets (endpointsKey ip) := by
      show ep ∈ (if (endpointsKey ip) = (endpointsKey ip) then
          (if ep ∈ (singletonZset st (requestsKey ip) (pyInt t1)).sets (endpointsKey ip)
           then (singletonZset st (requestsKey ip) (pyInt t1)).sets (endpointsKey ip)
           else ep :: (singletonZset st (requestsKey ip) (pyInt t1)).sets (endpointsKey ip))
          else (singletonZset st (requestsKey ip) (pyInt t1)).sets (endpointsKey ip))
      rw [if_pos rfl]
      split_ifs with h1
      · exact h1
      · exact List.mem_cons_self ep _
    rw [recordRequest_mem _ ip ep t2 hupS
      (by rw [hR, ← ht]; exact List.mem_singleton_self _) hE]
    simp only [Except.map]
    have hc : (decide (pyInt t2 - 60 ≤ pyInt t1 ∧ pyInt t1 ≤ pyInt t2)) = true := by
      simp only [decide_eq_true_eq]
      omega
    simp only [zcount, hupS, if_true, hR, List.length_cons, List.length_nil,
      List.countP_cons, List.countP_nil, hc]

/-- C10 witness: two recorded events at the distinct fractional timestamps
1000.5 and 1000.9, which truncate to the same whole second 1000. -/
theorem C10_witness :
    ((emptyRedis true).up = true ∧ pyInt (2001 / 2) = pyInt (10009 / 10)) ∧
    (recordLoginAttempt (emptyRedis true) "10.0.0.1" false (2001 / 2)).bind
        (fun s1 => (recordLoginAttempt s1 "10.0.0.1" false (10009 / 10)).map
          (fun s2 =>
            ((s2.zsets (loginAllKey "10.0.0.1")).length,
             (s2.zsets (loginFailedKey "10.0.0.1")).length,
             getLoginAttemptsRate s2 "10.0.0.1" 60 (10009 / 10)))) =
      .ok (1, 1, .ok 1) := by
  have ht : pyInt (2001 / 2 : ℚ) = pyInt (10009 / 10 : ℚ) := by
    unfold pyInt
    norm_num
    decide
  have h := C10_per_second_dedup (emptyRedis true) "10.0.0.1" "/" (2001 / 2)
    (10009 / 10) rfl ht
  exact ⟨⟨rfl, ht⟩, h.1 rfl rfl⟩

/-- C2: with the backing store unreachable, every aggregator query —
login-attempt rate, failed-auth rate, request rate, the two unique counts,
and time-since-last-activity — catches the `redis.RedisError` and returns
`0`/`0.0` instead of raising; feature extraction then carries exactly those
zero defaults in the corresponding fields, and prediction on the resulting
vector proceeds normally on any trained model. -/
theorem C2_fail_open :
    ∀ st : RedisState, st.up = false →
      ∀ (ip : String) (w : ℤ) (t now : ℚ) (cfg : FeatureConfig) (rand : Rand)
        (e : EventRec) (thrMed : ℚ) (m : EnsembleModel),
      getLoginAttemptsRate st ip w t = .ok 0
      ∧ getFailedAuthRate st ip w t = .ok 0
      ∧ getRequestsPerSecond st ip w t = .ok 0
      ∧ getUniqueEndpointsAccessed st ip = .ok 0
      ∧ getUniqueIpsLastHour st = .ok 0
      ∧ getTimeSinceLastActivity st ip t = .ok 0
      ∧ (extract cfg st rand now e).1.login_attempts_per_minute = 0
      ∧ (extract cfg st rand now e).1.requests_per_second = 0
      ∧ (extract cfg st rand now e).1.unique_ips_last_hour = 0
      ∧ (extract cfg st rand now e).1.unique_endpoints_accessed = 0
      ∧ (extract cfg st rand now e).1.failed_auth_rate = 0
      ∧ (extract cfg st rand now e).1.time_since_last_activity_sec = 0
      ∧ (m.isTrained = true →
          ensemblePredict thrMed m (extract cfg st rand now e).1.toArray =
            .ok (predictResult thrMed m (extract cfg st rand now e).1.toArray)) := by
  intro st hdown ip w t now cfg rand e thrMed m
  have hL : ∀ (ip2 : String) (w2 : ℤ) (t2 : ℚ),
      getLoginAttemptsRate st ip2 w2 t2 = .ok 0 := by
    intro ip2 w2 t2
    simp [getLoginAttemptsRate, zcount, hdown]
  have hF : ∀ (ip2 : String) (w2 : ℤ) (t2 : ℚ),
      getFailedAuthRate st ip2 w2 t2 = .ok 0 := by
    intro ip2 w2 t2
    simp [getFailedAuthRate, zcount, hdown]
  have hR : ∀ (ip2 : String) (w2 : ℤ) (t2 : ℚ),
      getRequestsPerSecond st ip2 w2 t2 = .ok 0 := by
    intro ip2 w2 t2
    simp [getRequestsPerSecond, zcount, hdown]
  have hUE : ∀ ip2 : String, getUniqueEndpointsAccessed st ip2 = .ok 0 := by
    intro ip2
    simp [getUniqueEndpointsAccessed, scard, hdown]
  have hUI : getUniqueIpsLastHour st = .ok 0 := by
    simp [getUniqueIpsLastHour, scard, hdown]
  have hTS : ∀ (ip2 : String) (t2 : ℚ),
      getTimeSinceLastActivity st ip2 t2 = .ok 0 := by
    intro ip2 t2
    simp [getTimeSinceLastActivity, zrevrangeTop, hdown]
  refine ⟨hL ip w t, hF ip w t, hR ip w t, hUE ip, hUI, hTS ip t,
    ?_, ?_, ?_, ?_, ?_, ?_, fun hm => ?_⟩
  · show engineerLoginRate st rand e.sourceIp e.timestamp 60 = 0
    unfold engineerLoginRate
    rw [hL]
  · show engineerRequestRate st rand e.sourceIp e.timestamp 60 = 0
    unfold engineerRequestRate
    rw [hR]
  · show engineerUniqueIps st rand = 0
    unfold engineerUniqueIps
    rw [hUI]
  · show engineerUniqueEndpoints st rand e.sourceIp = 0
    unfold engineerUniqueEndpoints
    rw [hUE]
  · show engineerFailedAuthRate st rand e.sourceIp now 300 = 0
    unfold engineerFailedAuthRate
    rw [hF]
  · show engineerTimeSince st rand e.sourceIp e.timestamp = 0
    unfold engineerTimeSince
    rw [hTS]
  · simp [ensemblePredict, hm]

/-- C2 witness: the fail-open behavior evaluated on a concrete unreachable
store, event and trained model. -/
theorem C2_witness :
    (emptyRedis false).up = false ∧ sampleModel.isTrained = true ∧
    getLoginAttemptsRate (emptyRedis false) "10.0.0.1" 60 1000 = .ok 0 ∧
    (extract defaultFeatureConfig (emptyRedis false) sampleRand 1000
        sampleEvent).1.login_attempts_per_minute = 0 ∧
    ensemblePredict (6 / 10) sampleModel
        (extract defaultFeatureConfig (emptyRedis false) sampleRand 1000
          sampleEvent).1.toArray =
      .ok (predictResult (6 / 10) sampleModel
        (extract defaultFeatureConfig (emptyRedis false) sampleRand 1000
          sampleEvent).1.toArray) := by
  have h := C2_fail_open (emptyRedis false) rfl "10.0.0.1" 60 1000 1000
    defaultFeatureConfig sampleRand sampleEvent (6 / 10) sampleModel
  exact ⟨rfl, rfl, h.1, h.2.2.2.2.2.2.1, h.2.2.2.2.2.2.2.2.2.2.2.2 rfl⟩

/-- C9: `FeatureEngineer.extract` factors as the pure read of the
aggregator state observed at call time followed by the `_update_cache`
write — so the returned vector reflects the state immediately before the
call's own write, and no counter read by a call includes the event being
extracted.  Concretely: extracting the sample authentication event from a
fresh aggregator yields `login_attempts_per_minute = 0` even though the
call itself records the attempt — extracting the same event again against
the post-state of the first call yields 1. -/
theorem C9_reads_precede_write :
    (∀ (cfg : FeatureConfig) (st : RedisState) (rand : Rand) (now : ℚ)
        (e : EventRec),
        extract cfg st rand now e =
          (pureFeatures cfg st rand now e, updateCacheAgg st e))
    ∧ (extract defaultFeatureConfig (emptyRedis true) sampleRand 1000
        sampleEvent).1.login_attempts_per_minute = 0
    ∧ (extract defaultFeatureConfig
        (extract defaultFeatureConfig (emptyRedis true) sampleRand 1000
          sampleEvent).2
        sampleRand 1000 sampleEvent).1.login_attempts_per_minute = 1 := by
  refine ⟨fun cfg st rand now e => rfl, ?_, ?_⟩
  · show engineerLoginRate (emptyRedis true) sampleRand sampleEvent.sourceIp
      sampleEvent.timestamp 60 = 0
    unfold engineerLoginRate
    rw [getLoginAttemptsRate_eval (emptyRedis true) sampleEvent.sourceIp 60
      sampleEvent.timestamp rfl (by norm_num)]
    norm_num [emptyRedis]
  · show engineerLoginRate (updateCacheAgg (emptyRedis true) sampleEvent)
      sampleRand sampleEvent.sourceIp sampleEvent.timestamp 60 = 1
    unfold engineerLoginRate
    rw [getLoginAttemptsRate_eval (updateCacheAgg (emptyRedis true) sampleEvent)
      sampleEvent.sourceIp 60 sampleEvent.timestamp rfl (by norm_num)]
    have hcount : ((updateCacheAgg (emptyRedis true) sampleEvent).zsets
        (loginAllKey sampleEvent.sourceIp)).countP
          (fun s => decide (pyInt sampleEvent.timestamp - 60 ≤ s
            ∧ s ≤ pyInt sampleEvent.timestamp)) = 1 := by decide
    rw [hcount]
    norm_num

theorem distE_self (a : Vec21) : distE a a = 0 := by
  simp [distE]

theorem distE_nonneg (a b : Vec21) : 0 ≤ distE a b :=
  Real.sqrt_nonneg _

theorem nearestFold_go (z : Vec21) :
    ∀ (items : List (ℤ × Vec21)) (p : ℤ × ℝ),
      ∃ q : ℤ × ℝ,
        items.foldl
            (fun best lc =>
              let d := distE z lc.2
              match best with
              | none => some (lc.1, d)
              | some p2 => some (if d < p2.2 then (lc.1, d) else p2))
            (some p) = some q
        ∧ (q = p ∨ ∃ lc ∈ items, q = (lc.1, distE z lc.2))
        ∧ q.2 ≤ p.2
        ∧ ∀ lc ∈ items, q.2 ≤ distE z lc.2 := by
  intro items
  induction items with
  | nil =>
      intro p
      exact ⟨p, rfl, Or.inl rfl, le_refl _, by simp⟩
  | cons lc rest ih =>
      intro p
      obtain ⟨q, hq, hach, hle, hmin⟩ :=
        ih (if distE z lc.2 < p.2 then (lc.1, distE z lc.2) else p)
      refine ⟨q, ?_, ?_, ?_, ?_⟩
      · exact hq
      · rcases hach with h | ⟨lc2, hlc2, hq2⟩
        · by_cases hd : distE z lc.2 < p.2
          · rw [if_pos hd] at h
            exact Or.inr ⟨lc, List.mem_cons_self lc rest, h⟩
          · rw [if_neg hd] at h
            exact Or.inl h
        · exact Or.inr ⟨lc2, List.mem_cons_of_mem lc hlc2, hq2⟩
      · refine le_trans hle ?_
        by_cases hd : distE z lc.2 < p.2
        · rw [if_pos hd]
          exact le_of_lt hd
        · rw [if_neg hd]
      · intro lc2 hlc2
        rcases List.mem_cons.mp hlc2 with h | h
        · subst h
          refine le_trans hle ?_
          by_cases hd : distE z lc2.2 < p.2
          · rw [if_pos hd]
          · rw [if_neg hd]
            exact not_lt.mp hd
        · exact hmin lc2 h

theorem nearestFold_spec (z : Vec21) (items : List (ℤ × Vec21))
    (hne : items ≠ []) :
    ∃ q : ℤ × ℝ,
      nearestFold z items = some q
      ∧ (∃ lc ∈ items, q = (lc.1, distE z lc.2))
      ∧ ∀ lc ∈ items, q.2 ≤ distE z lc.2 := by
  match items, hne with
  | lc :: rest, _ =>
    obtain ⟨q, hq, hach, hle, hmin⟩ := nearestFold_go z rest (lc.1, distE z lc.2)
    refine ⟨q, hq, ?_, ?_⟩
    · rcases hach with h | ⟨lc2, hlc2, h⟩
      · exact ⟨lc, List.mem_cons_self lc rest, h⟩
      · exact ⟨lc2, List.mem_cons_of_mem lc hlc2, h⟩
    · intro lc2 hlc2
      rcases List.mem_cons.mp hlc2 with h | h
      · subst h
        exact hle
      · exact hmin lc2 h

theorem dictGet_of_mem :
    ∀ (items : List (ℤ × Vec21)) (lc : ℤ × Vec21),
      (items.map Prod.fst).Nodup → lc ∈ items →
      dictGet items lc.1 = some lc.2 := by
  intro items
  induction items with
  | nil =>
      intro lc _ h
      exact absurd h (List.not_mem_nil lc)
  | cons kv rest ih =>
      intro lc hnodup hmem
      rw [List.map_cons, List.nodup_cons] at hnodup
      rcases List.mem_cons.mp hmem with h | h
      · subst h
        simp [dictGet]
      · have hne : kv.1 ≠ lc.1 := by
          intro hcon
          exact hnodup.1 (hcon ▸ List.mem_map_of_mem Prod.fst h)
        show (if kv.1 = lc.1 then some kv.2 else dictGet rest lc.1) = some lc.2
        rw [if_neg hne]
        exact ih lc hnodup.2 h


theorem dbscanScoreOn_eq (m : EnsembleModel) (z : Vec21) :
    dbscanScoreOn m z =
      (if predictDbscanLabel m z = -1 then (9 : ℝ) / 10
       else
         match dictGet m.centroids (predictDbscanLabel m z) with
         | some centroid => min (distE z centroid / 10) 1
         | none => 1 / 2) := rfl

theorem predictDbscanLabel_of_some (m : EnsembleModel) (z : Vec21)
    (q : ℤ × ℝ) (hq : nearestFold z m.centroids = some q) :
    predictDbscanLabel m z = if q.2 ≤ m.dbscanEps * 2 then q.1 else -1 := by
  unfold predictDbscanLabel
  rw [hq]

/-- C3: for a trained ensemble with at least one stored centroid (dict
keys unique, and not containing the noise label `-1`, which
`_compute_cluster_centroids` discards): if the scaled point's distance to
its nearest stored centroid exceeds `2 * eps`, the DBSCAN score is exactly
`0.9`; otherwise it is `min(distance / 10, 1)`; in particular a point
exactly at a stored centroid scores `0.0`. -/
theorem C3_dbscan_score :
    ∀ (m : EnsembleModel) (z : Vec21) (d : ℝ),
      m.centroids ≠ [] →
      (m.centroids.map Prod.fst).Nodup →
      (-1 : ℤ) ∉ m.centroids.map Prod.fst →
      d ∈ m.centroids.map (fun lc => distE z lc.2) →
      (∀ d2 ∈ m.centroids.map (fun lc => distE z lc.2), d ≤ d2) →
      ((m.dbscanEps * 2 < d → dbscanScoreOn m z = 9 / 10)
       ∧ (d ≤ m.dbscanEps * 2 → dbscanScoreOn m z = min (d / 10) 1)
       ∧ (0 ≤ m.dbscanEps → (∃ lc ∈ m.centroids, z = lc.2) →
           dbscanScoreOn m z = 0)) := by
  intro m z d hne hnodup hno1 hdmem hdmin
  obtain ⟨q, hq, ⟨lc, hlc, hqeq⟩, hqmin⟩ := nearestFold_spec z m.centroids hne
  have hdq : d = q.2 := by
    apply le_antisymm
    · have hmem : distE z lc.2 ∈ m.centroids.map (fun lc => distE z lc.2) :=
        List.mem_map_of_mem _ hlc
      have := hdmin _ hmem
      rw [hqeq]
      exact this
    · obtain ⟨lc2, hlc2, hd2⟩ := List.mem_map.mp hdmem
      exact hd2 ▸ hqmin lc2 hlc2
  have hcase1 : m.dbscanEps * 2 < d → dbscanScoreOn m z = 9 / 10 := by
    intro hgt
    have hnle : ¬ q.2 ≤ m.dbscanEps * 2 := by
      rw [← hdq]
      linarith
    rw [dbscanScoreOn_eq, predictDbscanLabel_of_some m z q hq, if_neg hnle]
    simp
  have hcase2 : d ≤ m.dbscanEps * 2 → dbscanScoreOn m z = min (d / 10) 1 := by
    intro hle
    have h1 : q.2 ≤ m.dbscanEps * 2 := by
      rw [← hdq]
      exact hle
    have hq1 : q.1 ≠ -1 := by
      intro hcon
      apply hno1
      rw [← hcon, hqeq]
      exact List.mem_map_of_mem Prod.fst hlc
    have hget : dictGet m.centroids q.1 = some lc.2 := by
      rw [hqeq]
      exact dictGet_of_mem m.centroids lc hnodup hlc
    rw [dbscanScoreOn_eq, predictDbscanLabel_of_some m z q hq, if_pos h1,
      if_neg hq1, hget]
    show min (distE z lc.2 / 10) 1 = min (d / 10) 1
    have hdist : distE z lc.2 = d := by
      rw [hdq, hqeq]
    rw [hdist]
  refine ⟨hcase1, hcase2, fun heps hzc => ?_⟩
  obtain ⟨lc0, hlc0, hz⟩ := hzc
  have hd0 : d = 0 := by
    apply le_antisymm
    · have hmem0 : distE z lc0.2 ∈ m.centroids.map (fun lc => distE z lc.2) :=
        List.mem_map_of_mem _ hlc0
      have := hdmin _ hmem0
      rw [hz, distE_self] at this
      exact this
    · obtain ⟨lc2, hlc2, hd2⟩ := List.mem_map.mp hdmem
      rw [← hd2]
      exact distE_nonneg z lc2.2
  rw [hcase2 (by rw [hd0]; linarith), hd0]
  norm_num

/-- C3 witness: the sample model has one centroid, at the origin with
label 0 and `eps = 1.5`; the origin itself scores `0.0`. -/
theorem C3_witness :
    sampleModel.centroids ≠ [] ∧
    (sampleModel.centroids.map Prod.fst).Nodup ∧
    dbscanScoreOn sampleModel (fun _ => 0) = 0 := by
  have hne : sampleModel.centroids ≠ [] := by simp [sampleModel]
  have hnodup : (sampleModel.centroids.map Prod.fst).Nodup := by
    simp [sampleModel]
  have hno1 : (-1 : ℤ) ∉ sampleModel.centroids.map Prod.fst := by
    simp [sampleModel]
  have hdmem : (0 : ℝ) ∈ sampleModel.centroids.map
      (fun lc => distE (fun _ => 0) lc.2) := by
    simp [sampleModel, distE]
  have hdmin : ∀ d2 ∈ sampleModel.centroids.map
      (fun lc => distE (fun _ => 0) lc.2), (0 : ℝ) ≤ d2 := by
    intro d2 hd2
    simp only [List.mem_map] at hd2
    obtain ⟨lc2, _, hd2⟩ := hd2
    rw [← hd2]
    exact distE_nonneg _ _
  refine ⟨hne, hnodup,
    (C3_dbscan_score sampleModel (fun _ => 0) 0 hne hnodup hno1 hdmem
      hdmin).2.2 (by norm_num [sampleModel]) ?_⟩
  exact ⟨(0, fun _ => 0), by simp [sampleModel], rfl⟩

end Siem
